import Mathlib

/-!
Verification development for the browser-source core of obs-browser
(src/obs-browser-source.cpp, src/windows-keycode.h).

The shallow embedding below models, from the source:
- the keycode translator `KeyboardCodeFromXKeysym` (a static switch, embedded as a
  first-match lookup table `keysymTable` in source case order);
- the task dispatcher `BrowserSource::ExecuteOnBrowser` (sync/async submission);
- `BrowserSource::DestroyBrowser`;
- the keyboard-injection closure of `BrowserSource::SendKeyClick` (Linux build,
  where the keycode translator is used);
- the configuration normalization and snapshot logic of `BrowserSource::Update`
  (with the `_WIN32` and `ENABLE_LOCAL_FILE_URL_SCHEME` preprocessor conditionals
  as explicit boolean parameters);
- the intrusive doubly-linked registry of live instances (`first_browser`,
  `next`, `p_prev_next`) maintained by the constructor and destructor, and the
  broadcast traversal of `ExecuteOnAllBrowsers`.

External collaborators (CEF, libobs, Qt) are opaque in the source and are modelled
by their interface behavior only where the code calls them (noted at each use).
Machine integers of the source are modelled as `Nat`/`Int`; none of the modelled
code paths rely on overflow.
-/

/-- Values of the virtual-key codes defined in src/windows-keycode.h. -/
def VKEY_UNKNOWN : Nat := 0x00
def VKEY_BACK : Nat := 0x08
def VKEY_TAB : Nat := 0x09
def VKEY_CLEAR : Nat := 0x0C
def VKEY_RETURN : Nat := 0x0D
def VKEY_SHIFT : Nat := 0x10
def VKEY_CONTROL : Nat := 0x11
def VKEY_MENU : Nat := 0x12
def VKEY_PAUSE : Nat := 0x13
def VKEY_CAPITAL : Nat := 0x14
def VKEY_KANA : Nat := 0x15
def VKEY_HANGUL : Nat := 0x15
def VKEY_HANJA : Nat := 0x19
def VKEY_KANJI : Nat := 0x19
def VKEY_ESCAPE : Nat := 0x1B
def VKEY_CONVERT : Nat := 0x1C
def VKEY_NONCONVERT : Nat := 0x1D
def VKEY_SPACE : Nat := 0x20
def VKEY_PRIOR : Nat := 0x21
def VKEY_NEXT : Nat := 0x22
def VKEY_END : Nat := 0x23
def VKEY_HOME : Nat := 0x24
def VKEY_LEFT : Nat := 0x25
def VKEY_UP : Nat := 0x26
def VKEY_RIGHT : Nat := 0x27
def VKEY_DOWN : Nat := 0x28
def VKEY_SELECT : Nat := 0x29
def VKEY_PRINT : Nat := 0x2A
def VKEY_EXECUTE : Nat := 0x2B
def VKEY_INSERT : Nat := 0x2D
def VKEY_DELETE : Nat := 0x2E
def VKEY_HELP : Nat := 0x2F
def VKEY_0 : Nat := 0x30
def VKEY_1 : Nat := 0x31
def VKEY_2 : Nat := 0x32
def VKEY_3 : Nat := 0x33
def VKEY_4 : Nat := 0x34
def VKEY_5 : Nat := 0x35
def VKEY_6 : Nat := 0x36
def VKEY_7 : Nat := 0x37
def VKEY_8 : Nat := 0x38
def VKEY_9 : Nat := 0x39
def VKEY_A : Nat := 0x41
def VKEY_B : Nat := 0x42
def VKEY_C : Nat := 0x43
def VKEY_D : Nat := 0x44
def VKEY_E : Nat := 0x45
def VKEY_F : Nat := 0x46
def VKEY_G : Nat := 0x47
def VKEY_H : Nat := 0x48
def VKEY_I : Nat := 0x49
def VKEY_J : Nat := 0x4A
def VKEY_K : Nat := 0x4B
def VKEY_L : Nat := 0x4C
def VKEY_M : Nat := 0x4D
def VKEY_N : Nat := 0x4E
def VKEY_O : Nat := 0x4F
def VKEY_P : Nat := 0x50
def VKEY_Q : Nat := 0x51
def VKEY_R : Nat := 0x52
def VKEY_S : Nat := 0x53
def VKEY_T : Nat := 0x54
def VKEY_U : Nat := 0x55
def VKEY_V : Nat := 0x56
def VKEY_W : Nat := 0x57
def VKEY_X : Nat := 0x58
def VKEY_Y : Nat := 0x59
def VKEY_Z : Nat := 0x5A
def VKEY_LWIN : Nat := 0x5B
def VKEY_RWIN : Nat := 0x5C
def VKEY_APPS : Nat := 0x5D
def VKEY_NUMPAD0 : Nat := 0x60
def VKEY_MULTIPLY : Nat := 0x6A
def VKEY_ADD : Nat := 0x6B
def VKEY_SEPARATOR : Nat := 0x6C
def VKEY_SUBTRACT : Nat := 0x6D
def VKEY_DECIMAL : Nat := 0x6E
def VKEY_DIVIDE : Nat := 0x6F
def VKEY_F1 : Nat := 0x70
def VKEY_F13 : Nat := 0x7C
def VKEY_F14 : Nat := 0x7D
def VKEY_F15 : Nat := 0x7E
def VKEY_F16 : Nat := 0x7F
def VKEY_F17 : Nat := 0x80
def VKEY_F18 : Nat := 0x81
def VKEY_NUMLOCK : Nat := 0x90
def VKEY_SCROLL : Nat := 0x91
def VKEY_WLAN : Nat := 0x97
def VKEY_POWER : Nat := 0x98
def VKEY_BROWSER_BACK : Nat := 0xA6
def VKEY_BROWSER_FORWARD : Nat := 0xA7
def VKEY_BROWSER_REFRESH : Nat := 0xA8
def VKEY_BROWSER_STOP : Nat := 0xA9
def VKEY_BROWSER_SEARCH : Nat := 0xAA
def VKEY_BROWSER_FAVORITES : Nat := 0xAB
def VKEY_BROWSER_HOME : Nat := 0xAC
def VKEY_VOLUME_MUTE : Nat := 0xAD
def VKEY_VOLUME_DOWN : Nat := 0xAE
def VKEY_VOLUME_UP : Nat := 0xAF
def VKEY_MEDIA_NEXT_TRACK : Nat := 0xB0
def VKEY_MEDIA_PREV_TRACK : Nat := 0xB1
def VKEY_MEDIA_STOP : Nat := 0xB2
def VKEY_MEDIA_PLAY_PAUSE : Nat := 0xB3
def VKEY_MEDIA_LAUNCH_MAIL : Nat := 0xB4
def VKEY_MEDIA_LAUNCH_APP1 : Nat := 0xB6
def VKEY_MEDIA_LAUNCH_APP2 : Nat := 0xB7
def VKEY_OEM_1 : Nat := 0xBA
def VKEY_OEM_PLUS : Nat := 0xBB
def VKEY_OEM_COMMA : Nat := 0xBC
def VKEY_OEM_MINUS : Nat := 0xBD
def VKEY_OEM_PERIOD : Nat := 0xBE
def VKEY_OEM_2 : Nat := 0xBF
def VKEY_OEM_3 : Nat := 0xC0
def VKEY_BRIGHTNESS_DOWN : Nat := 0xD8
def VKEY_BRIGHTNESS_UP : Nat := 0xD9
def VKEY_KBD_BRIGHTNESS_DOWN : Nat := 0xDA
def VKEY_OEM_4 : Nat := 0xDB
def VKEY_OEM_5 : Nat := 0xDC
def VKEY_OEM_6 : Nat := 0xDD
def VKEY_OEM_7 : Nat := 0xDE
def VKEY_OEM_8 : Nat := 0xDF
def VKEY_ALTGR : Nat := 0xE1
def VKEY_OEM_102 : Nat := 0xE2
def VKEY_COMPOSE : Nat := 0xE6
def VKEY_KBD_BRIGHTNESS_UP : Nat := 0xE8

/-- Values of the X11 key symbols (X11/keysymdef.h, XF86keysym.h) named in the
switch of KeyboardCodeFromXKeysym (src/obs-browser-source.cpp lines 303-701). -/
def XK_space : Nat := 0x0020
def XK_exclam : Nat := 0x0021
def XK_quotedbl : Nat := 0x0022
def XK_numbersign : Nat := 0x0023
def XK_dollar : Nat := 0x0024
def XK_percent : Nat := 0x0025
def XK_ampersand : Nat := 0x0026
def XK_quoteright : Nat := 0x0027
def XK_parenleft : Nat := 0x0028
def XK_parenright : Nat := 0x0029
def XK_asterisk : Nat := 0x002A
def XK_plus : Nat := 0x002B
def XK_comma : Nat := 0x002C
def XK_minus : Nat := 0x002D
def XK_period : Nat := 0x002E
def XK_slash : Nat := 0x002F
def XK_0 : Nat := 0x0030
def XK_1 : Nat := 0x0031
def XK_2 : Nat := 0x0032
def XK_3 : Nat := 0x0033
def XK_4 : Nat := 0x0034
def XK_5 : Nat := 0x0035
def XK_6 : Nat := 0x0036
def XK_7 : Nat := 0x0037
def XK_8 : Nat := 0x0038
def XK_9 : Nat := 0x0039
def XK_colon : Nat := 0x003A
def XK_semicolon : Nat := 0x003B
def XK_less : Nat := 0x003C
def XK_equal : Nat := 0x003D
def XK_greater : Nat := 0x003E
def XK_question : Nat := 0x003F
def XK_at : Nat := 0x0040
def XK_A : Nat := 0x0041
def XK_B : Nat := 0x0042
def XK_C : Nat := 0x0043
def XK_D : Nat := 0x0044
def XK_E : Nat := 0x0045
def XK_F : Nat := 0x0046
def XK_G : Nat := 0x0047
def XK_H : Nat := 0x0048
def XK_I : Nat := 0x0049
def XK_J : Nat := 0x004A
def XK_K : Nat := 0x004B
def XK_L : Nat := 0x004C
def XK_M : Nat := 0x004D
def XK_N : Nat := 0x004E
def XK_O : Nat := 0x004F
def XK_P : Nat := 0x0050
def XK_Q : Nat := 0x0051
def XK_R : Nat := 0x0052
def XK_S : Nat := 0x0053
def XK_T : Nat := 0x0054
def XK_U : Nat := 0x0055
def XK_V : Nat := 0x0056
def XK_W : Nat := 0x0057
def XK_X : Nat := 0x0058
def XK_Y : Nat := 0x0059
def XK_Z : Nat := 0x005A
def XK_bracketleft : Nat := 0x005B
def XK_backslash : Nat := 0x005C
def XK_bracketright : Nat := 0x005D
def XK_asciicircum : Nat := 0x005E
def XK_underscore : Nat := 0x005F
def XK_quoteleft : Nat := 0x0060
def XK_a : Nat := 0x0061
def XK_b : Nat := 0x0062
def XK_c : Nat := 0x0063
def XK_d : Nat := 0x0064
def XK_e : Nat := 0x0065
def XK_f : Nat := 0x0066
def XK_g : Nat := 0x0067
def XK_h : Nat := 0x0068
def XK_i : Nat := 0x0069
def XK_j : Nat := 0x006A
def XK_k : Nat := 0x006B
def XK_l : Nat := 0x006C
def XK_m : Nat := 0x006D
def XK_n : Nat := 0x006E
def XK_o : Nat := 0x006F
def XK_p : Nat := 0x0070
def XK_q : Nat := 0x0071
def XK_r : Nat := 0x0072
def XK_s : Nat := 0x0073
def XK_t : Nat := 0x0074
def XK_u : Nat := 0x0075
def XK_v : Nat := 0x0076
def XK_w : Nat := 0x0077
def XK_x : Nat := 0x0078
def XK_y : Nat := 0x0079
def XK_z : Nat := 0x007A
def XK_braceleft : Nat := 0x007B
def XK_bar : Nat := 0x007C
def XK_braceright : Nat := 0x007D
def XK_asciitilde : Nat := 0x007E
def XK_brokenbar : Nat := 0x00A6
def XK_guillemotleft : Nat := 0x00AB
def XK_degree : Nat := 0x00B0
def XK_guillemotright : Nat := 0x00BB
def XK_multiply : Nat := 0x00D7
def XK_Ugrave : Nat := 0x00D9
def XK_ugrave : Nat := 0x00F9
def XK_3270_BackTab : Nat := 0xFD05
def XK_ISO_Level3_Shift : Nat := 0xFE03
def XK_ISO_Level5_Shift : Nat := 0xFE11
def XK_ISO_Left_Tab : Nat := 0xFE20
def XK_ISO_Enter : Nat := 0xFE34
def XK_BackSpace : Nat := 0xFF08
def XK_Tab : Nat := 0xFF09
def XK_Linefeed : Nat := 0xFF0A
def XK_Clear : Nat := 0xFF0B
def XK_Return : Nat := 0xFF0D
def XK_Pause : Nat := 0xFF13
def XK_Scroll_Lock : Nat := 0xFF14
def XK_Escape : Nat := 0xFF1B
def XK_Multi_key : Nat := 0xFF20
def XK_Kanji : Nat := 0xFF21
def XK_Muhenkan : Nat := 0xFF22
def XK_Henkan : Nat := 0xFF23
def XK_Kana_Lock : Nat := 0xFF2D
def XK_Kana_Shift : Nat := 0xFF2E
def XK_Hangul : Nat := 0xFF31
def XK_Hangul_Hanja : Nat := 0xFF34
def XK_Home : Nat := 0xFF50
def XK_Left : Nat := 0xFF51
def XK_Up : Nat := 0xFF52
def XK_Right : Nat := 0xFF53
def XK_Down : Nat := 0xFF54
def XK_Page_Up : Nat := 0xFF55
def XK_Page_Down : Nat := 0xFF56
def XK_End : Nat := 0xFF57
def XK_Select : Nat := 0xFF60
def XK_Print : Nat := 0xFF61
def XK_Execute : Nat := 0xFF62
def XK_Insert : Nat := 0xFF63
def XK_Menu : Nat := 0xFF67
def XK_Help : Nat := 0xFF6A
def XK_Num_Lock : Nat := 0xFF7F
def XK_KP_Space : Nat := 0xFF80
def XK_KP_Tab : Nat := 0xFF89
def XK_KP_Enter : Nat := 0xFF8D
def XK_KP_F1 : Nat := 0xFF91
def XK_KP_Home : Nat := 0xFF95
def XK_KP_Left : Nat := 0xFF96
def XK_KP_Up : Nat := 0xFF97
def XK_KP_Right : Nat := 0xFF98
def XK_KP_Down : Nat := 0xFF99
def XK_KP_Page_Up : Nat := 0xFF9A
def XK_KP_Page_Down : Nat := 0xFF9B
def XK_KP_End : Nat := 0xFF9C
def XK_KP_Begin : Nat := 0xFF9D
def XK_KP_Insert : Nat := 0xFF9E
def XK_KP_Delete : Nat := 0xFF9F
def XK_KP_Multiply : Nat := 0xFFAA
def XK_KP_Add : Nat := 0xFFAB
def XK_KP_Separator : Nat := 0xFFAC
def XK_KP_Subtract : Nat := 0xFFAD
def XK_KP_Decimal : Nat := 0xFFAE
def XK_KP_Divide : Nat := 0xFFAF
def XK_KP_0 : Nat := 0xFFB0
def XK_KP_Equal : Nat := 0xFFBD
def XK_F1 : Nat := 0xFFBE
def XK_Shift_L : Nat := 0xFFE1
def XK_Shift_R : Nat := 0xFFE2
def XK_Control_L : Nat := 0xFFE3
def XK_Control_R : Nat := 0xFFE4
def XK_Caps_Lock : Nat := 0xFFE5
def XK_Meta_L : Nat := 0xFFE7
def XK_Meta_R : Nat := 0xFFE8
def XK_Alt_L : Nat := 0xFFE9
def XK_Alt_R : Nat := 0xFFEA
def XK_Super_L : Nat := 0xFFEB
def XK_Super_R : Nat := 0xFFEC
def XK_Delete : Nat := 0xFFFF
def XF86XK_MonBrightnessUp : Nat := 0x1008FF02
def XF86XK_MonBrightnessDown : Nat := 0x1008FF03
def XF86XK_KbdBrightnessUp : Nat := 0x1008FF05
def XF86XK_KbdBrightnessDown : Nat := 0x1008FF06
def XF86XK_AudioLowerVolume : Nat := 0x1008FF11
def XF86XK_AudioMute : Nat := 0x1008FF12
def XF86XK_AudioRaiseVolume : Nat := 0x1008FF13
def XF86XK_AudioPlay : Nat := 0x1008FF14
def XF86XK_AudioStop : Nat := 0x1008FF15
def XF86XK_AudioPrev : Nat := 0x1008FF16
def XF86XK_AudioNext : Nat := 0x1008FF17
def XF86XK_HomePage : Nat := 0x1008FF18
def XF86XK_Mail : Nat := 0x1008FF19
def XF86XK_Search : Nat := 0x1008FF1B
def XF86XK_Calculator : Nat := 0x1008FF1D
def XF86XK_Back : Nat := 0x1008FF26
def XF86XK_Forward : Nat := 0x1008FF27
def XF86XK_Stop : Nat := 0x1008FF28
def XF86XK_Refresh : Nat := 0x1008FF29
def XF86XK_PowerOff : Nat := 0x1008FF2A
def XF86XK_Favorites : Nat := 0x1008FF30
def XF86XK_History : Nat := 0x1008FF37
def XF86XK_OpenURL : Nat := 0x1008FF38
def XF86XK_AddFavorite : Nat := 0x1008FF39
def XF86XK_Launch5 : Nat := 0x1008FF45
def XF86XK_Launch6 : Nat := 0x1008FF46
def XF86XK_Launch7 : Nat := 0x1008FF47
def XF86XK_Launch8 : Nat := 0x1008FF48
def XF86XK_Launch9 : Nat := 0x1008FF49
def XF86XK_LaunchA : Nat := 0x1008FF4A
def XF86XK_LaunchB : Nat := 0x1008FF4B
def XF86XK_Go : Nat := 0x1008FF5F
def XF86XK_Reload : Nat := 0x1008FF73
def XF86XK_Tools : Nat := 0x1008FF81
def XF86XK_ZoomIn : Nat := 0x1008FF8B
def XF86XK_ZoomOut : Nat := 0x1008FF8C
def XF86XK_WLAN : Nat := 0x1008FF95

/-- Case table of the switch in KeyboardCodeFromXKeysym (src/obs-browser-source.cpp
lines 305-699), in source order: each entry is the list of case labels of one case
group together with the returned code (a function of the keysym for the four
fall-through groups that compute the code from an offset: digits, numpad digits,
F1-F24 and KP_F1-KP_F4). -/
def keysymTable : List (List Nat × (Nat → Nat)) := [
  ([XK_BackSpace], fun _ => VKEY_BACK),
  ([XK_Delete, XK_KP_Delete], fun _ => VKEY_DELETE),
  ([XK_Tab, XK_KP_Tab, XK_ISO_Left_Tab, XK_3270_BackTab], fun _ => VKEY_TAB),
  ([XK_Linefeed, XK_Return, XK_KP_Enter, XK_ISO_Enter], fun _ => VKEY_RETURN),
  ([XK_Clear, XK_KP_Begin], fun _ => VKEY_CLEAR),
  ([XK_KP_Space, XK_space], fun _ => VKEY_SPACE),
  ([XK_Home, XK_KP_Home], fun _ => VKEY_HOME),
  ([XK_End, XK_KP_End], fun _ => VKEY_END),
  ([XK_Page_Up, XK_KP_Page_Up], fun _ => VKEY_PRIOR),
  ([XK_Page_Down, XK_KP_Page_Down], fun _ => VKEY_NEXT),
  ([XK_Left, XK_KP_Left], fun _ => VKEY_LEFT),
  ([XK_Right, XK_KP_Right], fun _ => VKEY_RIGHT),
  ([XK_Down, XK_KP_Down], fun _ => VKEY_DOWN),
  ([XK_Up, XK_KP_Up], fun _ => VKEY_UP),
  ([XK_Escape], fun _ => VKEY_ESCAPE),
  ([XK_Kana_Lock, XK_Kana_Shift], fun _ => VKEY_KANA),
  ([XK_Hangul], fun _ => VKEY_HANGUL),
  ([XK_Hangul_Hanja], fun _ => VKEY_HANJA),
  ([XK_Kanji], fun _ => VKEY_KANJI),
  ([XK_Henkan], fun _ => VKEY_CONVERT),
  ([XK_Muhenkan], fun _ => VKEY_NONCONVERT),
  ([XK_A, XK_a], fun _ => VKEY_A),
  ([XK_B, XK_b], fun _ => VKEY_B),
  ([XK_C, XK_c], fun _ => VKEY_C),
  ([XK_D, XK_d], fun _ => VKEY_D),
  ([XK_E, XK_e], fun _ => VKEY_E),
  ([XK_F, XK_f], fun _ => VKEY_F),
  ([XK_G, XK_g], fun _ => VKEY_G),
  ([XK_H, XK_h], fun _ => VKEY_H),
  ([XK_I, XK_i], fun _ => VKEY_I),
  ([XK_J, XK_j], fun _ => VKEY_J),
  ([XK_K, XK_k], fun _ => VKEY_K),
  ([XK_L, XK_l], fun _ => VKEY_L),
  ([XK_M, XK_m], fun _ => VKEY_M),
  ([XK_N, XK_n], fun _ => VKEY_N),
  ([XK_O, XK_o], fun _ => VKEY_O),
  ([XK_P, XK_p], fun _ => VKEY_P),
  ([XK_Q, XK_q], fun _ => VKEY_Q),
  ([XK_R, XK_r], fun _ => VKEY_R),
  ([XK_S, XK_s], fun _ => VKEY_S),
  ([XK_T, XK_t], fun _ => VKEY_T),
  ([XK_U, XK_u], fun _ => VKEY_U),
  ([XK_V, XK_v], fun _ => VKEY_V),
  ([XK_W, XK_w], fun _ => VKEY_W),
  ([XK_X, XK_x], fun _ => VKEY_X),
  ([XK_Y, XK_y], fun _ => VKEY_Y),
  ([XK_Z, XK_z], fun _ => VKEY_Z),
  (((List.range 10).map (fun i => XK_0 + i)), fun keysym => VKEY_0 + (keysym - XK_0)),
  ([XK_parenright], fun _ => VKEY_0),
  ([XK_exclam], fun _ => VKEY_1),
  ([XK_at], fun _ => VKEY_2),
  ([XK_numbersign], fun _ => VKEY_3),
  ([XK_dollar], fun _ => VKEY_4),
  ([XK_percent], fun _ => VKEY_5),
  ([XK_asciicircum], fun _ => VKEY_6),
  ([XK_ampersand], fun _ => VKEY_7),
  ([XK_asterisk], fun _ => VKEY_8),
  ([XK_parenleft], fun _ => VKEY_9),
  (((List.range 10).map (fun i => XK_KP_0 + i)), fun keysym => VKEY_NUMPAD0 + (keysym - XK_KP_0)),
  ([XK_multiply, XK_KP_Multiply], fun _ => VKEY_MULTIPLY),
  ([XK_KP_Add], fun _ => VKEY_ADD),
  ([XK_KP_Separator], fun _ => VKEY_SEPARATOR),
  ([XK_KP_Subtract], fun _ => VKEY_SUBTRACT),
  ([XK_KP_Decimal], fun _ => VKEY_DECIMAL),
  ([XK_KP_Divide], fun _ => VKEY_DIVIDE),
  ([XK_KP_Equal, XK_equal, XK_plus], fun _ => VKEY_OEM_PLUS),
  ([XK_comma, XK_less], fun _ => VKEY_OEM_COMMA),
  ([XK_minus, XK_underscore], fun _ => VKEY_OEM_MINUS),
  ([XK_greater, XK_period], fun _ => VKEY_OEM_PERIOD),
  ([XK_colon, XK_semicolon], fun _ => VKEY_OEM_1),
  ([XK_question, XK_slash], fun _ => VKEY_OEM_2),
  ([XK_asciitilde, XK_quoteleft], fun _ => VKEY_OEM_3),
  ([XK_bracketleft, XK_braceleft], fun _ => VKEY_OEM_4),
  ([XK_backslash, XK_bar], fun _ => VKEY_OEM_5),
  ([XK_bracketright, XK_braceright], fun _ => VKEY_OEM_6),
  ([XK_quoteright, XK_quotedbl], fun _ => VKEY_OEM_7),
  ([XK_ISO_Level5_Shift], fun _ => VKEY_OEM_8),
  ([XK_Shift_L, XK_Shift_R], fun _ => VKEY_SHIFT),
  ([XK_Control_L, XK_Control_R], fun _ => VKEY_CONTROL),
  ([XK_Meta_L, XK_Meta_R, XK_Alt_L, XK_Alt_R], fun _ => VKEY_MENU),
  ([XK_ISO_Level3_Shift], fun _ => VKEY_ALTGR),
  ([XK_Multi_key], fun _ => VKEY_COMPOSE),
  ([XK_Pause], fun _ => VKEY_PAUSE),
  ([XK_Caps_Lock], fun _ => VKEY_CAPITAL),
  ([XK_Num_Lock], fun _ => VKEY_NUMLOCK),
  ([XK_Scroll_Lock], fun _ => VKEY_SCROLL),
  ([XK_Select], fun _ => VKEY_SELECT),
  ([XK_Print], fun _ => VKEY_PRINT),
  ([XK_Execute], fun _ => VKEY_EXECUTE),
  ([XK_Insert, XK_KP_Insert], fun _ => VKEY_INSERT),
  ([XK_Help], fun _ => VKEY_HELP),
  ([XK_Super_L], fun _ => VKEY_LWIN),
  ([XK_Super_R], fun _ => VKEY_RWIN),
  ([XK_Menu], fun _ => VKEY_APPS),
  (((List.range 24).map (fun i => XK_F1 + i)), fun keysym => VKEY_F1 + (keysym - XK_F1)),
  (((List.range 4).map (fun i => XK_KP_F1 + i)), fun keysym => VKEY_F1 + (keysym - XK_KP_F1)),
  ([XK_guillemotleft, XK_guillemotright, XK_degree, XK_ugrave, XK_Ugrave, XK_brokenbar], fun _ => VKEY_OEM_102),
  ([XF86XK_Tools], fun _ => VKEY_F13),
  ([XF86XK_Launch5], fun _ => VKEY_F14),
  ([XF86XK_Launch6], fun _ => VKEY_F15),
  ([XF86XK_Launch7], fun _ => VKEY_F16),
  ([XF86XK_Launch8], fun _ => VKEY_F17),
  ([XF86XK_Launch9], fun _ => VKEY_F18),
  ([XF86XK_Refresh, XF86XK_History, XF86XK_OpenURL, XF86XK_AddFavorite, XF86XK_Go, XF86XK_ZoomIn, XF86XK_ZoomOut], fun _ => VKEY_UNKNOWN),
  ([XF86XK_Back], fun _ => VKEY_BROWSER_BACK),
  ([XF86XK_Forward], fun _ => VKEY_BROWSER_FORWARD),
  ([XF86XK_Reload], fun _ => VKEY_BROWSER_REFRESH),
  ([XF86XK_Stop], fun _ => VKEY_BROWSER_STOP),
  ([XF86XK_Search], fun _ => VKEY_BROWSER_SEARCH),
  ([XF86XK_Favorites], fun _ => VKEY_BROWSER_FAVORITES),
  ([XF86XK_HomePage], fun _ => VKEY_BROWSER_HOME),
  ([XF86XK_AudioMute], fun _ => VKEY_VOLUME_MUTE),
  ([XF86XK_AudioLowerVolume], fun _ => VKEY_VOLUME_DOWN),
  ([XF86XK_AudioRaiseVolume], fun _ => VKEY_VOLUME_UP),
  ([XF86XK_AudioNext], fun _ => VKEY_MEDIA_NEXT_TRACK),
  ([XF86XK_AudioPrev], fun _ => VKEY_MEDIA_PREV_TRACK),
  ([XF86XK_AudioStop], fun _ => VKEY_MEDIA_STOP),
  ([XF86XK_AudioPlay], fun _ => VKEY_MEDIA_PLAY_PAUSE),
  ([XF86XK_Mail], fun _ => VKEY_MEDIA_LAUNCH_MAIL),
  ([XF86XK_LaunchA], fun _ => VKEY_MEDIA_LAUNCH_APP1),
  ([XF86XK_LaunchB, XF86XK_Calculator], fun _ => VKEY_MEDIA_LAUNCH_APP2),
  ([XF86XK_WLAN], fun _ => VKEY_WLAN),
  ([XF86XK_PowerOff], fun _ => VKEY_POWER),
  ([XF86XK_MonBrightnessDown], fun _ => VKEY_BRIGHTNESS_DOWN),
  ([XF86XK_MonBrightnessUp], fun _ => VKEY_BRIGHTNESS_UP),
  ([XF86XK_KbdBrightnessDown], fun _ => VKEY_KBD_BRIGHTNESS_DOWN),
  ([XF86XK_KbdBrightnessUp], fun _ => VKEY_KBD_BRIGHTNESS_UP)]

/-- Translation of `KeyboardCodeFromXKeysym` (src/obs-browser-source.cpp lines
303-701): the switch is the first-match lookup in `keysymTable`; reaching the end
of the switch falls through to `return VKEY_UNKNOWN` (line 700). Total on all of
`Nat`: every native key symbol value yields a code. -/
def KeyboardCodeFromXKeysym (keysym : Nat) : Nat :=
  match keysymTable.find? (fun ent => ent.1.contains keysym) with
  | some ent => ent.2 keysym
  | none => VKEY_UNKNOWN

/-- Set (as a list) of all keysym values carrying an explicit case label in the
switch of `KeyboardCodeFromXKeysym`. -/
def mappedKeysyms : List Nat :=
  (keysymTable.map Prod.fst).flatten

/-- Type of a CEF key event as filled in by `BrowserSource::SendKeyClick`
(cef_key_event_t is zero-initialized, so `character` starts at 0). -/
inductive CefKeyEventType where
  | KEYEVENT_RAWKEYDOWN
  | KEYEVENT_KEYUP
  | KEYEVENT_CHAR
deriving DecidableEq, Repr

/-- Fields of the CEF key event that `SendKeyClick` assigns. -/
structure CefKeyEvent where
  windows_key_code : Nat
  native_key_code : Nat
  type : CefKeyEventType
  character : Nat
  modifiers : Nat
deriving DecidableEq, Repr

/-- Engine events emitted by the closure of `BrowserSource::SendKeyClick`
(src/obs-browser-source.cpp lines 705-748), Linux build (`__LINUX__`), in order of
the `SendKeyEvent` calls. `text` is the wide form of `event->text` (the external
`to_wide` UTF-8 widening is modelled as already applied, so `text` is the list of
wide code units; the source's `!text.empty()` / `wide.size()` guards coincide on
it). The first event is the raw key event; when text is present and this is a
key-down, a second `KEYEVENT_CHAR` event follows whose `windows_key_code` is the
translated code of the first code unit (line 738). -/
def SendKeyClickEvents (text : List Nat)
    (native_vkey native_scancode native_modifiers : Nat) (key_up : Bool) :
    List CefKeyEvent :=
  let translated := KeyboardCodeFromXKeysym native_vkey
  let character : Nat := match text with
    | [] => 0
    | c :: _ => c
  let e : CefKeyEvent :=
    { windows_key_code := translated
      native_key_code := native_scancode
      type := if key_up then .KEYEVENT_KEYUP else .KEYEVENT_RAWKEYDOWN
      character := character
      modifiers := native_modifiers }
  e :: (match text, key_up with
    | _ :: _, false =>
      [{ e with
          type := .KEYEVENT_CHAR
          windows_key_code := KeyboardCodeFromXKeysym character
          native_key_code := native_scancode }]
    | _, _ => [])

/-- Fate of the closure handed to `BrowserSource::ExecuteOnBrowser` when it is
queued rather than run in place. `captured` is the async path (the closure holds
the browser reference captured at submission time, line 123); `checkLive` is the
sync path (the queued closure re-reads `cefBrowser` at execution time, line 114). -/
inductive EnqueuedTask (A : Type) where
  | none
  | captured (a : A)
  | checkLive (f : Nat → A)

/-- Observable outcome of one `ExecuteOnBrowser` call: whether the closure was
invoked on the calling thread (and on which handle), what was enqueued, and
whether the caller blocked waiting for completion (`os_event_wait`, line 119). -/
structure ExecOutcome (A : Type) where
  invokedNow : Option A
  enqueued : EnqueuedTask A
  blocked : Bool

/-- Translation of `BrowserSource::ExecuteOnBrowser` (src/obs-browser-source.cpp
lines 101-132). `useQtLoop` is the `USE_QT_LOOP` build conditional;
`onEngineThread` is the external `QThread::currentThread() == qApp->thread()`
test; `queueAccepts` is the boolean returned by the external `QueueCEFTask`
executor (false when the queue rejects submission, e.g. at shutdown);
`cefBrowser` is the instance's nullable engine handle, as `Option Nat`. The
closure `func` is modelled by its result on the handle it receives. -/
def ExecuteOnBrowser {A : Type} (useQtLoop onEngineThread queueAccepts : Bool)
    (cefBrowser : Option Nat) (func : Nat → A) (async : Bool) : ExecOutcome A :=
  if !async then
    if useQtLoop && onEngineThread then
      { invokedNow := cefBrowser.map func, enqueued := .none, blocked := false }
    else
      { invokedNow := none
        enqueued := if queueAccepts then .checkLive func else .none
        blocked := queueAccepts }
  else
    match cefBrowser with
    | some h =>
      { invokedNow := none
        enqueued := if queueAccepts then .captured (func h) else .none
        blocked := false }
    | none => { invokedNow := none, enqueued := .none, blocked := false }

/-- Translation of `BrowserSource::DestroyBrowser` (src/obs-browser-source.cpp
lines 198-221): it submits (via `ExecuteOnBrowser`) a closure that detaches the
client and closes the browser it receives, then unconditionally nulls
`cefBrowser` (line 220). The closure is modelled by `fun h => h`: the returned
value records the handle on which `WasHidden(true)`/`CloseBrowser(true)` are
performed. The first component is the value of `cefBrowser` after the call. -/
def DestroyBrowser (useQtLoop onEngineThread queueAccepts : Bool)
    (cefBrowser : Option Nat) (async : Bool) : Option Nat × ExecOutcome Nat :=
  (none, ExecuteOnBrowser useQtLoop onEngineThread queueAccepts cefBrowser (fun h => h) async)

/-- Handles on which a close operation is (eventually) performed, given one
`ExecuteOnBrowser` outcome: a closure invoked in place, an enqueued capturing
closure, or an enqueued sync closure run against the live handle `liveAtExec`
that `cefBrowser` holds when the engine thread executes it. -/
def closeOpsOf (out : ExecOutcome Nat) (liveAtExec : Option Nat) : List Nat :=
  (match out.invokedNow with | some h => [h] | none => []) ++
  (match out.enqueued with
   | .none => []
   | .captured h => [h]
   | .checkLive f => match liveAtExec with | some h => [f h] | none => [])

/-- Hex digit characters as produced by CEF's percent-encoding (uppercase). -/
def hexDigit (n : Nat) : Char :=
  if n < 10 then Char.ofNat (48 + n) else Char.ofNat (55 + n)

/-- Characters that percent-encoding leaves untouched: alphanumerics and
`-_.!~*'()` (Chromium's unreserved query-value set). -/
def isUnreservedUriChar (c : Char) : Bool :=
  (65 ≤ c.toNat && c.toNat ≤ 90) || (97 ≤ c.toNat && c.toNat ≤ 122) ||
  (48 ≤ c.toNat && c.toNat ≤ 57) ||
  c.toNat == 45 || c.toNat == 95 || c.toNat == 46 || c.toNat == 33 ||
  c.toNat == 126 || c.toNat == 42 || c.toNat == 39 || c.toNat == 40 || c.toNat == 41

/-- Modelled from the spec: `CefURIEncode(n_url, false)` (line 851) is an external
CEF capability; the spec (section 4.2) says local-file paths are URI-encoded. It is
modelled as percent-encoding, with uppercase hex, of every character outside the
unreserved set. Strings are modelled as `List Char`. -/
def CefURIEncode : List Char → List Char
  | [] => []
  | c :: rest =>
    (if isUnreservedUriChar c then [c]
     else ['%', hexDigit (c.toNat / 16 % 16), hexDigit (c.toNat % 16)]) ++
    CefURIEncode rest

/-- Translation of `std::string::find(pat)`: index of the first occurrence of
`pat` in `s`, `none` standing for `std::string::npos`. -/
def findSub (s pat : List Char) : Option Nat :=
  match s with
  | [] => if pat.isEmpty then some 0 else none
  | c :: rest =>
    if pat.isPrefixOf (c :: rest) then some 0
    else (findSub rest pat).map (fun i => i + 1)

/-- Translation of `std::string::replace(pos, len, repl)` where `pos` is the
result of a `find`: when `pos` is `npos` (`none`), `std::string::replace` throws
`std::out_of_range`, modelled as `Except.error`. -/
def stringReplaceAt (s : List Char) (pos : Option Nat) (len : Nat)
    (repl : List Char) : Except Unit (List Char) :=
  match pos with
  | none => .error ()
  | some p => .ok (s.take p ++ repl ++ s.drop (p + len))

/-- Iteration worker for the replacement loops of `Update`: one step per unit of
fuel of `while (s.find(pat) != npos) s.replace(s.find(pat), 3, r)`. -/
def replaceEncLoopAux (c2 c3 r : Char) : Nat → List Char → List Char
  | 0, s => s
  | fuel + 1, s =>
    match findSub s ['%', c2, c3] with
    | none => s
    | some p => replaceEncLoopAux c2 c3 r fuel (s.take p ++ [r] ++ s.drop (p + 3))

/-- Translation of the guarded replacement loops of `Update` (lines 857-861):
`while (n_url.find("%xy") != npos) n_url.replace(n_url.find("%xy"), 3, r)`.
Every iteration replaces a full three-character occurrence (which lies inside the
string, so `std::string::replace` is in range) by one character, shrinking the
string by two, so the loop runs at most `s.length` times: that much fuel makes
the worker exhaust the occurrences exactly as the `while` loop does. -/
def replaceEncLoop (c2 c3 r : Char) (s : List Char) : List Char :=
  replaceEncLoopAux c2 c3 r s.length s

/-- Translation of the local-file branch of `Update` (src/obs-browser-source.cpp
lines 850-875). `win32` is the `_WIN32` preprocessor conditional and
`enableLocalFileUrlScheme` is `ENABLE_LOCAL_FILE_URL_SCHEME`. On `_WIN32` the
first `"%3A"` is replaced through an unguarded `n_url.replace(n_url.find("%3A"),
3, ":")` (line 854), which throws when no `"%3A"` occurs; the two following
loops are npos-guarded. Finally the platform file scheme (or the
`http://absolute/` pseudo-scheme for older CEF) is prepended. -/
def normalizeLocalUrl (win32 enableLocalFileUrlScheme : Bool) (path : List Char) :
    Except Unit (List Char) := do
  let u0 := CefURIEncode path
  let u1 ← if win32 then stringReplaceAt u0 (findSub u0 ('%' :: '3' :: 'A' :: [])) 3 [':']
           else pure u0
  let u2 := replaceEncLoop '5' 'C' '/' u1
  let u3 := replaceEncLoop '2' 'F' '/' u2
  if !enableLocalFileUrlScheme then
    pure ("http://absolute/".toList ++ u3)
  else if win32 then
    pure ("file:///".toList ++ u3)
  else
    pure ("file://".toList ++ u3)

/-- Lowercasing of one byte as done by the external libobs `astrcmpi_n`. -/
def toLowerNat (n : Nat) : Nat := if 65 ≤ n && n ≤ 90 then n + 32 else n

/-- Modelled from the spec: `astrcmpi_n(n_url.c_str(), "http://absolute/", 16) ==
0` (line 878) is an external libobs helper; the spec (section 4.2) calls it the
recognition of the pseudo-absolute URI scheme. It is modelled as a
case-insensitive prefix test (a string shorter than the prefix compares through
its terminating NUL and cannot match). -/
def astrcmpiStartsWith : List Char → List Char → Bool
  | _, [] => true
  | [], _ :: _ => false
  | c :: cs, p :: ps =>
    toLowerNat c.toNat == toLowerNat p.toNat && astrcmpiStartsWith cs ps

/-- Typed settings record read by `Update` through the external `obs_data_get_*`
accessors (lines 838-848); field names follow the settings keys. -/
structure SettingsData where
  is_local_file : Bool
  width : Int
  height : Int
  fps_custom : Bool
  fps : Int
  shutdown : Bool
  restart_when_active : Bool
  css : List Char
  local_file : List Char
  url : List Char
  reroute_audio : Bool
deriving DecidableEq, Repr

/-- Configuration snapshot: the ten members of `BrowserSource` that `Update`
compares and replaces (lines 886-903), with the source's member names. -/
structure Config where
  is_local : Bool
  width : Int
  height : Int
  fps_custom : Bool
  fps : Int
  shutdown_on_invisible : Bool
  restart : Bool
  css : List Char
  url : List Char
  reroute_audio : Bool
deriving DecidableEq, Repr

/-- Normalization performed by `Update` on a present settings object (lines
826-884): read the typed fields, normalize a local path into a file URI, and
rewrite a recognized `http://absolute/` URL back to `file:///` when
`ENABLE_LOCAL_FILE_URL_SCHEME` is on (lines 877-884, which also forces
`n_is_local = true`). -/
def normalizeConfig (win32 enableLocalFileUrlScheme : Bool) (s : SettingsData) :
    Except Unit Config := do
  let nUrl0 := if s.is_local_file then s.local_file else s.url
  let nUrl1 ← if s.is_local_file then normalizeLocalUrl win32 enableLocalFileUrlScheme nUrl0
              else pure nUrl0
  let rewrite := enableLocalFileUrlScheme && astrcmpiStartsWith nUrl1 "http://absolute/".toList
  let nUrl2 := if rewrite then "file:///".toList ++ nUrl1.drop 16 else nUrl1
  let nIsLocal := if rewrite then true else s.is_local_file
  pure { is_local := nIsLocal
         width := s.width
         height := s.height
         fps_custom := s.fps_custom
         fps := s.fps
         shutdown_on_invisible := s.shutdown
         restart := s.restart_when_active
         css := s.css
         url := nUrl2
         reroute_audio := s.reroute_audio }

/-- Side effects of `Update` (and of the teardown path it shares with the
settings-less call): the asynchronous close of a captured engine handle
(`DestroyBrowser(true)`), the texture release (`DestroyTextures`), the audio
stream release (`ClearAudioStreams`), and the audio-reroute propagation
(`obs_source_set_audio_active`). -/
inductive UpdateAction where
  | setAudioActive (b : Bool)
  | enqueueClose (h : Nat)
  | destroyTextures
  | clearAudioStreams
deriving DecidableEq, Repr

/-- State of one `BrowserSource` instance as far as `Update`/`Tick` observe it:
the configuration snapshot, the nullable engine handle, and the transient flags
`create_browser` and `first_update`. -/
structure BrowserState where
  cfg : Config
  cefBrowser : Option Nat
  create_browser : Bool
  first_update : Bool
deriving DecidableEq, Repr

/-- Teardown tail of `Update` (lines 908-914), run after the optional snapshot
replacement: `DestroyBrowser(true)` (which enqueues a close for the captured
handle iff one exists, then nulls `cefBrowser`), `DestroyTextures()`,
`ClearAudioStreams()`, then `create_browser = true` unless the instance shuts
down while hidden and is not showing (`obs_source_showing` is the external
visibility query, passed in as `sourceShowing`), and finally
`first_update = false`. -/
def finishUpdate (sourceShowing : Bool) (st : BrowserState)
    (acts : List UpdateAction) : BrowserState × List UpdateAction :=
  ({ st with
      cefBrowser := none
      create_browser :=
        if !st.cfg.shutdown_on_invisible || sourceShowing then true
        else st.create_browser
      first_update := false },
   acts ++
   (match st.cefBrowser with
    | some h => [UpdateAction.enqueueClose h]
    | none => []) ++
   [UpdateAction.destroyTextures, UpdateAction.clearAudioStreams])

/-- Field-for-field identity of a normalized configuration with the current
snapshot: the ten-way comparison of lines 886-892, in source order. -/
def sameConfig (n c : Config) : Prop :=
  n.is_local = c.is_local ∧ n.width = c.width ∧ n.height = c.height ∧
  n.fps_custom = c.fps_custom ∧ n.fps = c.fps ∧
  n.shutdown_on_invisible = c.shutdown_on_invisible ∧ n.restart = c.restart ∧
  n.css = c.css ∧ n.url = c.url ∧ n.reroute_audio = c.reroute_audio

instance (n c : Config) : Decidable (sameConfig n c) := by
  unfold sameConfig
  infer_instance

/-- Translation of `BrowserSource::Update` (src/obs-browser-source.cpp lines
824-915). With a present settings object the configuration is normalized; if the
result is field-for-field identical to the current snapshot (`sameConfig`) the
call returns at once, with no state change and no action. Otherwise the snapshot
is replaced, the reroute flag propagated, and the teardown tail runs; with an
absent settings object the teardown tail runs directly. The `Except` layer
carries the `std::out_of_range` that the Windows branch of the normalization can
throw. -/
def Update (win32 enableLocalFileUrlScheme sourceShowing : Bool)
    (st : BrowserState) (settings : Option SettingsData) :
    Except Unit (BrowserState × List UpdateAction) :=
  match settings with
  | none => .ok (finishUpdate sourceShowing st [])
  | some s =>
    match normalizeConfig win32 enableLocalFileUrlScheme s with
    | .error e => .error e
    | .ok n =>
      if sameConfig n st.cfg then
        .ok (st, [])
      else
        .ok (finishUpdate sourceShowing { st with cfg := n }
              [UpdateAction.setAudioActive n.reroute_audio])

/-- Slot through which one link of the registry chain is written: either the
global head pointer `first_browser` or the `next` field of a node. This models
the `BrowserSource **p_prev_next` back-pointer (`&first_browser` or
`&prev->next`). -/
inductive Slot where
  | head
  | node (x : Nat)
deriving DecidableEq, Repr

/-- State of the global instance registry (src/obs-browser-source.cpp lines
49-50, 76-99): the head pointer `first_browser`, and each instance's `next`
pointer and `p_prev_next` back-pointer, keyed by instance identity. Values held
for identities that are not in the list are irrelevant junk. -/
structure RegState where
  first : Option Nat
  next : Nat → Option Nat
  pprev : Nat → Slot

/-- Dereference of a slot: `*p_prev_next` as an rvalue. -/
def readSlot (st : RegState) : Slot → Option Nat
  | .head => st.first
  | .node x => st.next x

/-- Assignment through a slot: `*p_prev_next = v`. -/
def writeSlot (st : RegState) (s : Slot) (v : Option Nat) : RegState :=
  match s with
  | .head => { st with first := v }
  | .node x => { st with next := fun y => if y = x then v else st.next y }

/-- Assignment of one instance's back-pointer. -/
def setPPrev (st : RegState) (x : Nat) (s : Slot) : RegState :=
  { st with pprev := fun y => if y = x then s else st.pprev y }

/-- Registration performed by the `BrowserSource` constructor (lines 82-87)
under `browser_list_mutex`:
`p_prev_next = &first_browser; next = first_browser;
if (first_browser) first_browser->p_prev_next = &next; first_browser = this;`. -/
def registerBrowser (st : RegState) (x : Nat) : RegState :=
  let st1 := setPPrev st x Slot.head
  let st2 := { st1 with next := fun y => if y = x then st.first else st1.next y }
  let st3 := match st.first with
    | some f => setPPrev st2 f (Slot.node x)
    | none => st2
  { st3 with first := some x }

/-- Unregistration performed by the `BrowserSource` destructor (lines 95-98)
under `browser_list_mutex`:
`if (next) next->p_prev_next = p_prev_next; *p_prev_next = next;`. -/
def unregisterBrowser (st : RegState) (x : Nat) : RegState :=
  let st1 := match st.next x with
    | some n => setPPrev st n (st.pprev x)
    | none => st
  writeSlot st1 (st.pprev x) (st.next x)

/-- Well-formed chain: the content of slot `s` starts the chain `l`, every node's
back-pointer designates the slot that points at it, and the last node's `next`
is null. `chainAt st Slot.head l` says the registry currently holds exactly the
instances of `l`, in order. -/
def chainAt (st : RegState) : Slot → List Nat → Prop
  | s, [] => readSlot st s = none
  | s, x :: l => readSlot st s = some x ∧ st.pprev x = s ∧ chainAt st (Slot.node x) l

/-- Walk of the registry as done by `ExecuteOnAllBrowsers` (lines 960-970):
`bs = first_browser; while (bs) { visit(bs); bs = bs->next; }`. The fuel only
bounds the walk so it is a total function; any fuel at least the chain length is
enough. -/
def walkFrom (st : RegState) : Nat → Option Nat → List Nat
  | 0, _ => []
  | _ + 1, none => []
  | fuel + 1, some x => x :: walkFrom st fuel (st.next x)

/-- Instances visited by one broadcast traversal (`ExecuteOnAllBrowsers`). -/
def broadcastVisits (st : RegState) (fuel : Nat) : List Nat :=
  walkFrom st fuel st.first

/-- Lifecycle events that touch the registry: `construct` is the
`BrowserSource` constructor of the instance identity, `destruct` its
destructor. -/
inductive RegOp where
  | construct (x : Nat)
  | destruct (x : Nat)
deriving DecidableEq, Repr

/-- Validity of an event sequence against the list of currently live instances:
an identity is constructed only while not live, destructed only while live. -/
def validOpsFrom : List Nat → List RegOp → Bool
  | _, [] => true
  | live, RegOp.construct x :: ops =>
    !live.contains x && validOpsFrom (x :: live) ops
  | live, RegOp.destruct x :: ops =>
    live.contains x && validOpsFrom (live.erase x) ops

/-- Effect of one lifecycle event on the registry and on the live list. -/
def applyRegOp : RegState × List Nat → RegOp → RegState × List Nat
  | (st, live), RegOp.construct x => (registerBrowser st x, x :: live)
  | (st, live), RegOp.destruct x => (unregisterBrowser st x, live.erase x)

/-- Registry and live list after a sequence of lifecycle events. -/
def runRegOps (init : RegState × List Nat) : List RegOp → RegState × List Nat
  | [] => init
  | op :: ops => runRegOps (applyRegOp init op) ops

/-- Registry state at process start: `first_browser = nullptr` (line 50); the
per-instance fields hold arbitrary initial junk. -/
def initRegState : RegState :=
  { first := none, next := fun _ => none, pprev := fun _ => Slot.head }

/-- Idle instance fixture: empty snapshot, no engine handle, no pending
creation, first update still pending. -/
def stIdle : BrowserState :=
  { cfg := { is_local := false, width := 0, height := 0, fps_custom := false,
             fps := 0, shutdown_on_invisible := false, restart := false,
             css := [], url := [], reroute_audio := false }
    cefBrowser := none
    create_browser := false
    first_update := true }

/-- Settings fixture carrying a remote URL that differs from the `stIdle`
snapshot. -/
def urlSettings : SettingsData :=
  { is_local_file := false, width := 2, height := 3, fps_custom := false,
    fps := 0, shutdown := false, restart_when_active := false, css := [],
    local_file := [], url := ['u'], reroute_audio := false }

/-- State reached by applying `urlSettings` to `stIdle` through `Update`. -/
def urlState : BrowserState :=
  { cfg := { is_local := false, width := 2, height := 3, fps_custom := false,
             fps := 0, shutdown_on_invisible := false, restart := false,
             css := [], url := ['u'], reroute_audio := false }
    cefBrowser := none
    create_browser := true
    first_update := false }

/-- Windows local-file settings fixture with path `C:\clip.webm`. -/
def winClipSettings : SettingsData :=
  { is_local_file := true, width := 100, height := 50, fps_custom := false,
    fps := 30, shutdown := false, restart_when_active := false, css := [],
    local_file := "C:\\clip.webm".toList, url := [], reroute_audio := false }

/-- Windows local-file settings fixture whose path contains no colon, so its
URI-encoding contains no `"%3A"`. -/
def winNoColonSettings : SettingsData :=
  { is_local_file := true, width := 0, height := 0, fps_custom := false,
    fps := 0, shutdown := false, restart_when_active := false, css := [],
    local_file := "clip.webm".toList, url := [], reroute_audio := false }

/-- C2: an asynchronous submission (`ExecuteOnBrowser` with `async = true`,
lines 122-131) against an instance whose engine handle is null never invokes the
closure, enqueues nothing, and raises no error (the model is total and the
outcome records no invocation and no task), for every closure, build
configuration, calling thread and queue disposition. -/
theorem executeOnBrowser_async_null_handle_noop {A : Type}
    (useQtLoop onEngineThread queueAccepts : Bool) (func : Nat → A) :
    ExecuteOnBrowser useQtLoop onEngineThread queueAccepts none func true =
      { invokedNow := none, enqueued := EnqueuedTask.none, blocked := false } := rfl

/-- C7: a synchronous submission (`ExecuteOnBrowser` with `async = false`) made
from the engine-loop thread itself (the `USE_QT_LOOP` fast path, lines 104-110)
never blocks: it invokes the closure immediately exactly when the instance holds
a non-null handle (`invokedNow = cefBrowser.map func`), enqueues nothing, and
returns. -/
theorem executeOnBrowser_sync_engine_thread {A : Type} (queueAccepts : Bool)
    (cefBrowser : Option Nat) (func : Nat → A) :
    ExecuteOnBrowser true true queueAccepts cefBrowser func false =
      { invokedNow := cefBrowser.map func, enqueued := EnqueuedTask.none,
        blocked := false } := rfl

/-- C8: `DestroyBrowser` is idempotent: after any call the handle reference is
null, and a second call (equivalently, a call on an instance that never created
an engine object) performs no engine close operation, whatever the build
configuration, calling thread, queue disposition and sync/async mode. -/
theorem destroyBrowser_idempotent (useQtLoop onEngineThread queueAccepts async : Bool)
    (cefBrowser : Option Nat) :
    (DestroyBrowser useQtLoop onEngineThread queueAccepts cefBrowser async).1 = none ∧
    closeOpsOf
      (DestroyBrowser useQtLoop onEngineThread queueAccepts
        ((DestroyBrowser useQtLoop onEngineThread queueAccepts cefBrowser async).1)
        async).2
      none = [] := by
  refine ⟨rfl, ?_⟩
  cases async <;> cases useQtLoop <;> cases onEngineThread <;> cases queueAccepts <;> rfl

/-- C4: `SendKeyClick` with non-empty text and `key_up = false` produces exactly
two engine events in order: the raw key-down, then a `KEYEVENT_CHAR` event whose
`character` is the first code unit of the text and whose `windows_key_code` is
the translated code of that character; with `key_up = true` it produces exactly
one key-up event. -/
theorem sendKeyClick_event_policy (c : Nat) (cs : List Nat)
    (native_vkey native_scancode native_modifiers : Nat) :
    SendKeyClickEvents (c :: cs) native_vkey native_scancode native_modifiers false =
      [{ windows_key_code := KeyboardCodeFromXKeysym native_vkey
         native_key_code := native_scancode
         type := CefKeyEventType.KEYEVENT_RAWKEYDOWN
         character := c
         modifiers := native_modifiers },
       { windows_key_code := KeyboardCodeFromXKeysym c
         native_key_code := native_scancode
         type := CefKeyEventType.KEYEVENT_CHAR
         character := c
         modifiers := native_modifiers }] ∧
    ∀ text : List Nat, ∃ e : CefKeyEvent,
      SendKeyClickEvents text native_vkey native_scancode native_modifiers true = [e] ∧
      e.type = CefKeyEventType.KEYEVENT_KEYUP := by
  refine ⟨rfl, ?_⟩
  intro text
  cases text with
  | nil => exact ⟨_, rfl, rfl⟩
  | cons c2 cs2 => exact ⟨_, rfl, rfl⟩

/-- C6: on the Windows build, `Update` with a local-file path containing no
colon aborts with `std::out_of_range` instead of completing: the unguarded
`n_url.replace(n_url.find("%3A"), 3, ":")` of line 854 is passed `npos`. The
claim that the normalization never fails is contradicted at this input. -/
theorem update_win32_no_colon_throws (sourceShowing : Bool) (st : BrowserState) :
    Update true true sourceShowing st (some winNoColonSettings) = Except.error () := rfl

/-- C10: `Update` on a Windows-style target (`_WIN32` with
`ENABLE_LOCAL_FILE_URL_SCHEME`) with `is_local_file = true` and path
`C:\clip.webm` stores the normalized URI `file:///C:/clip.webm`: `file:///`
scheme, every backslash replaced by a forward slash. -/
theorem update_windows_local_file_uri :
    (Update true true true stIdle (some winClipSettings)).map
        (fun p => (p.1.cfg.url, p.1.cfg.is_local)) =
      Except.ok ("file:///C:/clip.webm".toList, true) := rfl

/-- C5 counterexample: calling `Update` with absent settings on an idle instance
(its first invocation) is not a deferring no-op: the resulting state differs
from the prior one (the pending-create flag is set and `first_update` is
cleared) and the teardown tail runs. -/
theorem update_none_counterexample :
    Update true true true stIdle none =
      Except.ok ({ stIdle with create_browser := true, first_update := false },
        [UpdateAction.destroyTextures, UpdateAction.clearAudioStreams]) ∧
    ({ stIdle with create_browser := true, first_update := false } : BrowserState) ≠ stIdle := by
  exact ⟨rfl, by decide⟩

/-- C5 amended: `Update` with absent settings keeps the configuration snapshot
unchanged and, when the handle is null, issues no engine close; but it is not a
no-op: it always runs the teardown tail (handle reference nulled, textures and
audio streams released, close enqueued exactly for a previously held handle),
clears `first_update`, and schedules creation whenever the source is showing or
not configured to shut down while hidden. -/
theorem update_none_teardown_and_schedule (win32 enable sourceShowing : Bool)
    (st : BrowserState) :
    ∃ st2 acts,
      Update win32 enable sourceShowing st none = Except.ok (st2, acts) ∧
      st2.cfg = st.cfg ∧
      st2.cefBrowser = none ∧
      st2.first_update = false ∧
      st2.create_browser =
        (!st.cfg.shutdown_on_invisible || sourceShowing || st.create_browser) ∧
      acts = (match st.cefBrowser with
              | some h => [UpdateAction.enqueueClose h]
              | none => []) ++
             [UpdateAction.destroyTextures, UpdateAction.clearAudioStreams] := by
  refine ⟨_, _, rfl, rfl, rfl, rfl, ?_, ?_⟩
  · show (if !st.cfg.shutdown_on_invisible || sourceShowing then true
          else st.create_browser) = _
    cases h : (!st.cfg.shutdown_on_invisible || sourceShowing) <;> simp [h]
  · show [] ++ _ = _
    simp

/-- C3: the keycode translator is total and sends every keysym without an
explicit case label in the switch to the `VKEY_UNKNOWN` sentinel (0); it never
fails (the lookup is a total function into `Nat`). -/
theorem keyboardCodeFromXKeysym_total_unknown (keysym : Nat)
    (h : keysym ∉ mappedKeysyms) :
    KeyboardCodeFromXKeysym keysym = VKEY_UNKNOWN := by
  unfold KeyboardCodeFromXKeysym
  cases hf : keysymTable.find? (fun ent => ent.1.contains keysym) with
  | none => rfl
  | some ent =>
    exfalso
    apply h
    have hpred := List.find?_some hf
    have hmem := List.mem_of_find?_eq_some hf
    simp only [mappedKeysyms, List.mem_flatten]
    refine ⟨ent.1, List.mem_map_of_mem Prod.fst hmem, ?_⟩
    simpa using hpred

/-- C3 witness: keysym 0xFF00 carries no case label, and the translator sends it
to `VKEY_UNKNOWN`. -/
theorem keyboardCodeFromXKeysym_total_unknown_witness :
    0xFF00 ∉ mappedKeysyms ∧ KeyboardCodeFromXKeysym 0xFF00 = VKEY_UNKNOWN :=
  ⟨by decide, keyboardCodeFromXKeysym_total_unknown 0xFF00 (by decide)⟩

/-- C1: when two consecutive `Update` calls carry settings with identical
normalized configurations, the second call is a no-op: starting from the state
left by the first call it returns that state unchanged (snapshot kept, handle
kept, pending-create flag kept) and performs no action — no teardown, no close,
so the pair triggers at most the first call's single teardown/recreate cycle. -/
theorem update_identical_config_second_noop
    (win32 enable showing1 showing2 : Bool) (st st2 : BrowserState)
    (acts : List UpdateAction) (s1 s2 : SettingsData)
    (hnorm : normalizeConfig win32 enable s1 = normalizeConfig win32 enable s2)
    (hfirst : Update win32 enable showing1 st (some s1) = Except.ok (st2, acts)) :
    Update win32 enable showing2 st2 (some s2) = Except.ok (st2, []) := by
  simp only [Update] at hfirst ⊢
  cases hn : normalizeConfig win32 enable s1 with
  | error e =>
    rw [hn] at hfirst
    exact absurd hfirst (by simp)
  | ok n =>
    simp only [hn] at hfirst
    simp only [← hnorm, hn]
    by_cases hc : sameConfig n st.cfg
    · rw [if_pos hc] at hfirst
      simp only [Except.ok.injEq, Prod.mk.injEq] at hfirst
      obtain ⟨rfl, rfl⟩ := hfirst
      rw [if_pos hc]
    · rw [if_neg hc] at hfirst
      simp only [finishUpdate, Except.ok.injEq, Prod.mk.injEq] at hfirst
      obtain ⟨rfl, rfl⟩ := hfirst
      rw [if_pos]
      exact ⟨rfl, rfl, rfl, rfl, rfl, rfl, rfl, rfl, rfl, rfl⟩

/-- C1 witness: applying `urlSettings` to the idle instance performs one
teardown/recreate cycle and reaches `urlState`; repeating the same settings is a
no-op. -/
theorem update_identical_config_second_noop_witness :
    Update false false true stIdle (some urlSettings) =
      Except.ok (urlState,
        [UpdateAction.setAudioActive false, UpdateAction.destroyTextures,
         UpdateAction.clearAudioStreams]) ∧
    Update false false false urlState (some urlSettings) =
      Except.ok (urlState, []) :=
  ⟨rfl,
   update_identical_config_second_noop false false true false stIdle urlState
     [UpdateAction.setAudioActive false, UpdateAction.destroyTextures,
      UpdateAction.clearAudioStreams]
     urlSettings urlSettings rfl rfl⟩

/-- Reading any slot is unaffected by a back-pointer assignment. -/
theorem readSlot_setPPrev (st : RegState) (x : Nat) (sl s : Slot) :
    readSlot (setPPrev st x sl) s = readSlot st s := by
  cases s <;> rfl

/-- Back-pointers are unaffected by an assignment through a slot. -/
theorem pprev_writeSlot (st : RegState) (s : Slot) (v : Option Nat) (y : Nat) :
    (writeSlot st s v).pprev y = st.pprev y := by
  cases s <;> rfl

/-- Reading back the slot just assigned yields the assigned value. -/
theorem readSlot_writeSlot_same (st : RegState) (s : Slot) (v : Option Nat) :
    readSlot (writeSlot st s v) s = v := by
  cases s with
  | head => rfl
  | node x => simp [writeSlot, readSlot]

/-- Reading a different slot is unaffected by an assignment. -/
theorem readSlot_writeSlot_other (st : RegState) (s t : Slot) (v : Option Nat)
    (hne : t ≠ s) : readSlot (writeSlot st s v) t = readSlot st t := by
  cases s <;> cases t <;> simp_all [writeSlot, readSlot, Slot.node.injEq]

/-- Reading back the back-pointer just assigned. -/
theorem pprev_setPPrev_same (st : RegState) (x : Nat) (sl : Slot) :
    (setPPrev st x sl).pprev x = sl := by
  simp [setPPrev]

/-- Other back-pointers are unaffected by a back-pointer assignment. -/
theorem pprev_setPPrev_other (st : RegState) (x : Nat) (sl : Slot) (y : Nat)
    (h : y ≠ x) : (setPPrev st x sl).pprev y = st.pprev y := by
  simp [setPPrev, h]

/-- Frame rule for chains: a chain is preserved by any state change that keeps
its starting slot, the back-pointers of its members and the `next` slots of its
members intact. -/
theorem chainAt_congr {st st2 : RegState} (l : List Nat) :
    ∀ s : Slot, chainAt st s l →
      readSlot st2 s = readSlot st s →
      (∀ x ∈ l, st2.pprev x = st.pprev x) →
      (∀ x ∈ l, readSlot st2 (Slot.node x) = readSlot st (Slot.node x)) →
      chainAt st2 s l := by
  induction l with
  | nil =>
    intro s hch hs _ _
    simp only [chainAt] at hch ⊢
    rw [hs, hch]
  | cons x l ih =>
    intro s hch hs hp hn
    simp only [chainAt] at hch ⊢
    obtain ⟨h1, h2, h3⟩ := hch
    refine ⟨hs.trans h1, (hp x (by simp)).trans h2, ?_⟩
    exact ih (Slot.node x) h3 (hn x (by simp))
      (fun y hy => hp y (by simp [hy])) (fun y hy => hn y (by simp [hy]))

/-- Inside a chain, the successor slot of a member holds either nothing or
another member of the chain. -/
theorem chainAt_next_mem {st : RegState} (l : List Nat) :
    ∀ (s : Slot) (x z : Nat), chainAt st s l → x ∈ l → st.next x = some z →
      z ∈ l := by
  induction l with
  | nil =>
    intro s x z _ hx _
    simp at hx
  | cons y l ih =>
    intro s x z hch hx hnx
    simp only [chainAt] at hch
    obtain ⟨h1, h2, h3⟩ := hch
    rcases List.mem_cons.mp hx with rfl | hx2
    · cases l with
      | nil =>
        simp only [chainAt, readSlot] at h3
        rw [h3] at hnx
        cases hnx
      | cons w l2 =>
        simp only [chainAt, readSlot] at h3
        obtain ⟨h31, _, _⟩ := h3
        rw [hnx] at h31
        obtain rfl : z = w := by injection h31
        simp
    · exact List.mem_cons_of_mem _ (ih (Slot.node y) x z h3 hx2 hnx)

/-- Inside a chain, each member's back-pointer designates a slot whose content
is that member. -/
theorem chainAt_pprev_read {st : RegState} (l : List Nat) :
    ∀ (s : Slot) (x : Nat), chainAt st s l → x ∈ l →
      readSlot st (st.pprev x) = some x := by
  induction l with
  | nil =>
    intro s x _ hx
    simp at hx
  | cons y l ih =>
    intro s x hch hx
    simp only [chainAt] at hch
    obtain ⟨h1, h2, h3⟩ := hch
    rcases List.mem_cons.mp hx with rfl | hx2
    · rw [h2]
      exact h1
    · exact ih (Slot.node y) x h3 hx2

/-- Registration of a fresh instance prepends it to the registry chain
(constructor lines 82-87). -/
theorem registerBrowser_chainAt {st : RegState} {l : List Nat} {x : Nat}
    (hch : chainAt st Slot.head l) (hnd : l.Nodup) (hx : x ∉ l) :
    chainAt (registerBrowser st x) Slot.head (x :: l) := by
  cases hf : st.first with
  | none =>
    cases l with
    | cons y l2 =>
      simp only [chainAt, readSlot] at hch
      rw [hf] at hch
      exact absurd hch.1 (by simp)
    | nil =>
      simp only [chainAt, readSlot]
      refine ⟨?_, ?_, ?_⟩
      · simp [registerBrowser, hf]
      · simp [registerBrowser, hf, setPPrev]
      · simp [registerBrowser, hf, setPPrev]
  | some f =>
    cases l with
    | nil =>
      simp only [chainAt, readSlot] at hch
      rw [hf] at hch
      cases hch
    | cons y l2 =>
      simp only [chainAt, readSlot] at hch
      obtain ⟨h1, h2, h3⟩ := hch
      rw [hf] at h1
      obtain rfl : f = y := by injection h1
      have hyx : f ≠ x := fun h => hx (h ▸ List.mem_cons_self f l2)
      have hxy : x ≠ f := Ne.symm hyx
      have hyl2 : f ∉ l2 := (List.nodup_cons.mp hnd).1
      have hxl2 : x ∉ l2 := fun h => hx (List.mem_cons_of_mem f h)
      simp only [chainAt, readSlot]
      refine ⟨?_, ?_, ?_, ?_, ?_⟩
      · simp [registerBrowser, hf]
      · -- back-pointer of x survives the later assignment to the old head
        simp [registerBrowser, hf, setPPrev, hxy]
      · -- next of x was set to the old head
        simp [registerBrowser, hf, setPPrev]
      · -- back-pointer of the old head was redirected to x
        simp [registerBrowser, hf, setPPrev]
      · -- the tail chain is untouched
        refine chainAt_congr l2 (Slot.node f) h3 ?_ ?_ ?_
        · simp [registerBrowser, hf, setPPrev, readSlot, hyx]
        · intro m hm
          have hmx : m ≠ x := fun h => hxl2 (h ▸ hm)
          have hmf : m ≠ f := fun h => hyl2 (h ▸ hm)
          simp [registerBrowser, hf, setPPrev, hmx, hmf]
        · intro m hm
          have hmx : m ≠ x := fun h => hxl2 (h ▸ hm)
          simp [registerBrowser, hf, setPPrev, readSlot, hmx]

/-- Reading a slot other than the destructed node's back-pointer target is
unaffected by unregistration. -/
theorem readSlot_unregister (st : RegState) (x : Nat) (t : Slot)
    (ht : t ≠ st.pprev x) :
    readSlot (unregisterBrowser st x) t = readSlot st t := by
  unfold unregisterBrowser
  cases hnx : st.next x with
  | none =>
    simp only [hnx]
    exact readSlot_writeSlot_other _ _ _ _ ht
  | some n =>
    simp only [hnx]
    rw [readSlot_writeSlot_other _ _ _ _ ht, readSlot_setPPrev]

/-- Back-pointers of nodes other than the destructed node's successor are
unaffected by unregistration. -/
theorem pprev_unregister (st : RegState) (x m : Nat)
    (hm : ∀ n, st.next x = some n → m ≠ n) :
    (unregisterBrowser st x).pprev m = st.pprev m := by
  unfold unregisterBrowser
  cases hnx : st.next x with
  | none =>
    simp only [hnx]
    rw [pprev_writeSlot]
  | some n =>
    simp only [hnx]
    rw [pprev_writeSlot]
    exact pprev_setPPrev_other _ _ _ _ (hm n hnx)

/-- Unregistration removes exactly the destructed instance from the registry
chain (destructor lines 95-98), in O(1) through its back-pointer. -/
theorem unregisterBrowser_chainAt {st : RegState} {x : Nat} (l : List Nat) :
    ∀ s : Slot, chainAt st s l → l.Nodup → x ∈ l → s ≠ Slot.node x →
      chainAt (unregisterBrowser st x) s (l.erase x) := by
  induction l with
  | nil =>
    intro s _ _ hx _
    simp at hx
  | cons y l ih =>
    intro s hch hnd hx hs
    simp only [chainAt] at hch
    obtain ⟨h1, h2, h3⟩ := hch
    by_cases hxy : x = y
    · subst hxy
      rw [List.erase_cons_head]
      cases l with
      | nil =>
        simp only [chainAt, readSlot] at h3
        simp only [chainAt]
        simp only [unregisterBrowser, h3, h2]
        exact readSlot_writeSlot_same _ _ _
      | cons n l2 =>
        simp only [chainAt, readSlot] at h3
        obtain ⟨h31, h32, h33⟩ := h3
        have hxnl2 : x ∉ n :: l2 := (List.nodup_cons.mp hnd).1
        have hnl2 : n ∉ l2 := (List.nodup_cons.mp (List.nodup_cons.mp hnd).2).1
        have hxl2 : x ∉ l2 := fun h => hxnl2 (List.mem_cons_of_mem n h)
        have hsn : s ≠ Slot.node n := by
          intro h
          subst h
          simp only [readSlot] at h1
          cases l2 with
          | nil =>
            simp only [chainAt, readSlot] at h33
            rw [h33] at h1
            cases h1
          | cons w l3 =>
            simp only [chainAt, readSlot] at h33
            obtain ⟨h331, _, _⟩ := h33
            rw [h331] at h1
            injection h1 with h1e
            subst h1e
            exact hxl2 (List.mem_cons_self _ l3)
        simp only [chainAt]
        simp only [unregisterBrowser, h31, h2]
        refine ⟨readSlot_writeSlot_same _ _ _, ?_, ?_⟩
        · rw [pprev_writeSlot]
          exact pprev_setPPrev_same _ _ _
        · refine chainAt_congr l2 (Slot.node n) h33 ?_ ?_ ?_
          · rw [readSlot_writeSlot_other _ _ _ _ (Ne.symm hsn), readSlot_setPPrev]
          · intro m hm
            rw [pprev_writeSlot]
            exact pprev_setPPrev_other _ _ _ _ (fun h => hnl2 (h ▸ hm))
          · intro m hm
            have hsm : Slot.node m ≠ s := by
              intro h
              rw [← h] at h1
              simp only [readSlot] at h1
              exact hxl2 (chainAt_next_mem l2 (Slot.node n) m x h33 hm h1)
            rw [readSlot_writeSlot_other _ _ _ _ hsm, readSlot_setPPrev]
    · have hx2 : x ∈ l := by
        rcases List.mem_cons.mp hx with h | h
        · exact absurd h hxy
        · exact h
      have hyl : y ∉ l := (List.nodup_cons.mp hnd).1
      have hndl : l.Nodup := (List.nodup_cons.mp hnd).2
      have hch0 : chainAt st s (y :: l) := by
        simp only [chainAt]
        exact ⟨h1, h2, h3⟩
      have hpx : readSlot st (st.pprev x) = some x :=
        chainAt_pprev_read (y :: l) s x hch0 hx
      have hspv : s ≠ st.pprev x := by
        intro h
        rw [← h, h1] at hpx
        injection hpx with h1e
        exact hxy h1e.symm
      have hyn : ∀ n, st.next x = some n → y ≠ n := by
        intro n hnx h
        subst h
        exact hyl (chainAt_next_mem l (Slot.node y) x y h3 hx2 hnx)
      have herase : (y :: l).erase x = y :: l.erase x :=
        List.erase_cons_tail (by simp; exact fun h => hxy h.symm)
      rw [herase]
      simp only [chainAt]
      refine ⟨?_, ?_, ?_⟩
      · rw [readSlot_unregister st x s hspv]
        exact h1
      · rw [pprev_unregister st x y hyn]
        exact h2
      · exact ih (Slot.node y) h3 hndl hx2
          (fun h => hxy (by injection h with h2e; exact h2e.symm))

/-- Registry invariant: some duplicate-free chain hangs off `first_browser` and
is a permutation of the live-instance list. -/
def registryInv (st : RegState) (live : List Nat) : Prop :=
  ∃ l, chainAt st Slot.head l ∧ l.Nodup ∧ l.Perm live

/-- The registry invariant is preserved by every valid sequence of
constructions and destructions. -/
theorem runRegOps_registryInv (ops : List RegOp) :
    ∀ (st : RegState) (live : List Nat), registryInv st live →
      validOpsFrom live ops = true →
      registryInv (runRegOps (st, live) ops).1 (runRegOps (st, live) ops).2 := by
  induction ops with
  | nil =>
    intro st live h _
    exact h
  | cons op ops ih =>
    intro st live h hv
    obtain ⟨l, hch, hnd, hperm⟩ := h
    cases op with
    | construct x =>
      simp only [validOpsFrom, Bool.and_eq_true, Bool.not_eq_true'] at hv
      obtain ⟨hc, hrest⟩ := hv
      have hxlive : x ∉ live := by
        simpa [List.contains, List.elem_eq_mem] using hc
      have hxl : x ∉ l := fun hm => hxlive (hperm.mem_iff.mp hm)
      simp only [runRegOps, applyRegOp]
      exact ih _ _
        ⟨x :: l, registerBrowser_chainAt hch hnd hxl,
         List.nodup_cons.mpr ⟨hxl, hnd⟩, hperm.cons x⟩ hrest
    | destruct x =>
      simp only [validOpsFrom, Bool.and_eq_true] at hv
      obtain ⟨hc, hrest⟩ := hv
      have hxlive : x ∈ live := by
        simpa [List.contains, List.elem_eq_mem] using hc
      have hxl : x ∈ l := hperm.mem_iff.mpr hxlive
      simp only [runRegOps, applyRegOp]
      exact ih _ _
        ⟨l.erase x,
         unregisterBrowser_chainAt l Slot.head hch hnd hxl (by simp),
         hnd.erase x, hperm.erase x⟩ hrest

/-- Walking the registry with enough fuel reproduces exactly the chain. -/
theorem walkFrom_chainAt {st : RegState} (l : List Nat) :
    ∀ (s : Slot) (fuel : Nat), chainAt st s l → l.length ≤ fuel →
      walkFrom st fuel (readSlot st s) = l := by
  induction l with
  | nil =>
    intro s fuel hch _
    simp only [chainAt] at hch
    rw [hch]
    cases fuel <;> rfl
  | cons x l ih =>
    intro s fuel hch hf
    simp only [chainAt] at hch
    obtain ⟨h1, h2, h3⟩ := hch
    rw [h1]
    cases fuel with
    | zero => simp at hf
    | succ fuel =>
      simp only [walkFrom, List.cons.injEq, true_and]
      have := ih (Slot.node x) fuel h3 (by simpa using Nat.succ_le_succ_iff.mp hf)
      simp only [readSlot] at this
      exact this

/-- C9: after every valid sequence of constructions and destructions starting
from the empty registry, the `first_browser` chain consists of exactly the
constructed-but-not-yet-destroyed instances, each exactly once (a duplicate-free
permutation of the live list), and the broadcast traversal of
`ExecuteOnAllBrowsers` visits exactly that chain. -/
theorem registry_chain_matches_live (ops : List RegOp)
    (hv : validOpsFrom [] ops = true) :
    ∃ l : List Nat,
      chainAt (runRegOps (initRegState, []) ops).1 Slot.head l ∧
      l.Nodup ∧
      l.Perm (runRegOps (initRegState, []) ops).2 ∧
      broadcastVisits (runRegOps (initRegState, []) ops).1
        (runRegOps (initRegState, []) ops).2.length = l := by
  have h0 : registryInv initRegState [] :=
    ⟨[], by simp [chainAt, readSlot, initRegState], List.nodup_nil, List.Perm.refl []⟩
  obtain ⟨l, hch, hnd, hperm⟩ := runRegOps_registryInv ops initRegState [] h0 hv
  refine ⟨l, hch, hnd, hperm, ?_⟩
  have hlen : l.length ≤ (runRegOps (initRegState, []) ops).2.length :=
    le_of_eq hperm.length_eq
  have hwalk := walkFrom_chainAt l Slot.head _ hch hlen
  simpa [broadcastVisits, readSlot] using hwalk

/-- C9 witness: constructing instances 1, 2, 3 and destructing 2 is a valid
sequence, and the conclusion holds for it (the chain is then `[3, 1]`). -/
theorem registry_chain_matches_live_witness :
    validOpsFrom []
      [RegOp.construct 1, RegOp.construct 2, RegOp.construct 3,
       RegOp.destruct 2] = true ∧
    ∃ l : List Nat,
      chainAt
        (runRegOps (initRegState, [])
          [RegOp.construct 1, RegOp.construct 2, RegOp.construct 3,
           RegOp.destruct 2]).1 Slot.head l ∧
      l.Nodup ∧
      l.Perm
        (runRegOps (initRegState, [])
          [RegOp.construct 1, RegOp.construct 2, RegOp.construct 3,
           RegOp.destruct 2]).2 ∧
      broadcastVisits
        (runRegOps (initRegState, [])
          [RegOp.construct 1, RegOp.construct 2, RegOp.construct 3,
           RegOp.destruct 2]).1
        (runRegOps (initRegState, [])
          [RegOp.construct 1, RegOp.construct 2, RegOp.construct 3,
           RegOp.destruct 2]).2.length = l :=
  ⟨by decide,
   registry_chain_matches_live
     [RegOp.construct 1, RegOp.construct 2, RegOp.construct 3,
      RegOp.destruct 2] (by decide)⟩
